import Mathlib

/-!
Shallow embedding of the `pixel_card_game` Anchor program
(`src/degame/src/lib.rs`) for checking its natural-language specification.

Modelling conventions:
* `Pubkey` values are modelled as `Nat`.
* Machine integers are modelled as `Nat` (`u8`, `u64`) or `Int` (`i64`);
  the `u64` checked arithmetic of `claim_prize` is modelled explicitly
  with a bound `UMAX = 2 ^ 64 - 1`.
* `f64` fields (`multiplier`, the gain table) are modelled as `ℚ`.  The
  gain table only contains decimal literals and no claim in this
  development depends on binary floating-point rounding.
* Each instruction handler is a pure function returning the result
  together with the state of its mutable accounts at the point the
  function returns (Rust `&mut` semantics at function exit).  Event
  emission (`emit!`) has no effect on account state and is omitted;
  the prize amount of the `PrizeClaimed` event is returned by
  `claim_prize` so that the paid amount is observable.
* The lamport transfer in `claim_prize` (`try_borrow_mut_lamports`)
  aborts the whole transaction if the `u64` subtraction underflows or
  the addition overflows (panic under overflow checks, or rejection by
  the runtime's lamport-conservation check); this is modelled as the
  distinguished failure `TxError.lamports`.
-/

/-- A playing card, `Card { suit: String, value: u8 }` from the source. -/
structure Card where
  suit : String
  value : Nat
deriving DecidableEq

/-- The main bet direction, `BetType` from the source. -/
inductive BetType where
  | High
  | Low
deriving DecidableEq

/-- The optional side bet, `SideBetType` from the source. -/
inductive SideBetType where
  | Color (red : Bool)
  | Parity (even : Bool)
deriving DecidableEq

/-- Result of resolving one bet, `BetOutcome` from the source. -/
structure BetOutcome where
  correct : Bool
  multiplier_gain : ℚ
  side_bet_result : Option Int
deriving DecidableEq

/-- The program's error enum, `ErrorCode` from the source. -/
inductive ErrorCode where
  | InvalidStartTime
  | InvalidEntryFee
  | DailyLimitReached
  | RandomnessAlreadyReceived
  | BetTimeExpired
  | GameOver
  | PrizeWindowExpired
  | NotOnLeaderboard
  | ArithmeticError
  | Unauthorized
deriving DecidableEq

/-- Per-player session account, `Player` from the source. -/
structure Player where
  game_id : Nat
  start_time : Int
  multiplier : ℚ
  side_bet_score : Int
  randomness : Option Nat
  deck : List Card
  daily_games : Nat
  finished : Bool
deriving DecidableEq

/-- One leaderboard entry, `LeaderboardEntry` from the source. -/
structure LeaderboardEntry where
  player : Nat
  score : Nat
deriving DecidableEq

/-- The global game account, `State` from the source. -/
structure State where
  admin : Nat
  entry_fee : Nat
  start_time : Int
  end_time : Int
  leaderboard_size : Nat
  leaderboard : List LeaderboardEntry
  finalized : Bool
  finalized_timestamp : Int
  pool : Nat
deriving DecidableEq

/-- Failure of a transaction: a program error returned by the handler, or
an abort of the lamport transfer (panic / runtime rejection). -/
inductive TxError where
  | program (e : ErrorCode)
  | lamports
deriving DecidableEq

/-- Largest `u64` value; `claim_prize`'s checked arithmetic and the
lamport balances are bounded by it. -/
def UMAX : Nat := 2 ^ 64 - 1

/-- `u64::checked_mul`. -/
def checked_mul (a b : Nat) : Option Nat :=
  if a * b ≤ UMAX then some (a * b) else none

/-- `u64::checked_div`. -/
def checked_div (a b : Nat) : Option Nat :=
  if b = 0 then none else some (a / b)

/-- The fixed payout table, `calculate_multiplier_gain` from the source:
maps the current card's value and the bet direction to a multiplier gain,
with a neutral `1.0` for any value outside `2..=14`. -/
def calculate_multiplier_gain (current_card_value : Nat) (bet_type : BetType) : ℚ :=
  match current_card_value with
  | 2 => match bet_type with
    | .High => 1.2
    | .Low => 4.0
  | 3 => match bet_type with
    | .High => 1.25
    | .Low => 3.5
  | 4 => match bet_type with
    | .High => 1.3
    | .Low => 3.0
  | 5 => match bet_type with
    | .High => 1.35
    | .Low => 2.5
  | 6 => match bet_type with
    | .High => 1.4
    | .Low => 2.0
  | 7 => match bet_type with
    | .High => 1.5
    | .Low => 1.7
  | 8 => match bet_type with
    | .High => 1.6
    | .Low => 1.6
  | 9 => match bet_type with
    | .High => 1.8
    | .Low => 1.6
  | 10 => match bet_type with
    | .High => 2.0
    | .Low => 1.5
  | 11 => match bet_type with
    | .High => 2.5
    | .Low => 1.4
  | 12 => match bet_type with
    | .High => 3.0
    | .Low => 1.3
  | 13 => match bet_type with
    | .High => 4.0
    | .Low => 1.2
  | 14 => match bet_type with
    | .High => 1.2
    | .Low => 1.2
  | _ => 1

/-- `resolve_bet` from the source.  Takes the player by `&mut`; the
returned `Player` is the state of that account when the function
returns (in particular, `deck.remove(0)` has already happened when the
`GameOver` of the missing next card is reported). -/
def resolve_bet (player : Player) (bet_type : BetType) (side_bet : Option SideBetType) :
    Except ErrorCode BetOutcome × Player :=
  match player.deck with
  | [] => (.error .GameOver, player)
  | current_card :: rest =>
    let player' := { player with deck := rest }
    match rest.head? with
    | none => (.error .GameOver, player')
    | some next_card =>
      let outcome : Bool :=
        match bet_type with
        | .High => decide (next_card.value > current_card.value)
        | .Low => decide (next_card.value < current_card.value)
      let multiplier_gain := calculate_multiplier_gain current_card.value bet_type
      let side_bet_result : Option Int :=
        match side_bet with
        | some (.Color red) =>
          let is_red := current_card.suit == "Hearts" || current_card.suit == "Diamonds"
          if red == is_red then some 1 else some (-1)
        | some (.Parity even) =>
          let is_even := current_card.value % 2 == 0
          if even == is_even then some 1 else some (-1)
        | none => none
      (.ok ⟨outcome, multiplier_gain, side_bet_result⟩, player')

/-- `place_bet` from the source: checks the 60-second bet window, then
resolves the bet; on an incorrect outcome it sets `finished := true` and
reports `GameOver`, otherwise it applies the multiplier gain and the
side-bet delta.  `now` is `Clock::get()?.unix_timestamp`. -/
def place_bet (player : Player) (now : Int) (bet_type : BetType)
    (side_bet : Option SideBetType) : Except ErrorCode Unit × Player :=
  if now - player.start_time > 60 then
    (.error .BetTimeExpired, player)
  else
    match resolve_bet player bet_type side_bet with
    | (.error e, p) => (.error e, p)
    | (.ok outcome, p) =>
      if !outcome.correct then
        (.error .GameOver, { p with finished := true })
      else
        let p := { p with multiplier := p.multiplier * outcome.multiplier_gain }
        let p :=
          match outcome.side_bet_result with
          | some side_bet_result =>
            { p with side_bet_score := p.side_bet_score + side_bet_result }
          | none => p
        (.ok (), p)

/-- `start_game` from the source: enforces the daily cap of 10, then
increments the counter and resets the round fields.  `now` is
`Clock::get()?.unix_timestamp`. -/
def start_game (player : Player) (now : Int) (game_id : Nat) :
    Except ErrorCode Unit × Player :=
  if player.daily_games ≥ 10 then
    (.error .DailyLimitReached, player)
  else
    (.ok (), { player with
      daily_games := player.daily_games + 1
      start_time := now
      game_id := game_id
      finished := false
      multiplier := 1 })

/-- Comparator of `finalize_leaderboard`'s `sort_by`: the Rust
`|a, b| b.score.cmp(&a.score)` orders higher scores first. -/
def scoreDesc (a b : LeaderboardEntry) : Bool :=
  b.score ≤ a.score

/-- `finalize_leaderboard` from the source: admin check, then a stable
sort of the leaderboard by descending score (Rust's `sort_by` is
stable, modelled by the stable `List.mergeSort`), truncation to
`leaderboard_size`, and stamping `finalized` / `finalized_timestamp`.
There is no check of an already-set `finalized` flag. -/
def finalize_leaderboard (state : State) (admin_key : Nat) (now : Int) :
    Except ErrorCode Unit × State :=
  if admin_key ≠ state.admin then
    (.error .Unauthorized, state)
  else
    let sorted := (state.leaderboard.mergeSort scoreDesc).take state.leaderboard_size
    (.ok (), { state with
      leaderboard := sorted
      finalized := true
      finalized_timestamp := now })

/-- The `match position` of `claim_prize`: positions 0, 1, 2 carry the
percentages 50, 30, 20 and anything else is `NotOnLeaderboard`. -/
def prize_percentage (position : Nat) : Option Nat :=
  match position with
  | 0 => some 50
  | 1 => some 30
  | 2 => some 20
  | _ => none

/-- `claim_prize` from the source.  Inputs are the state account with
its lamport balance, the claimant's wallet lamport balance, the signer
(`player`, used only in the emitted event), `now`, and the claimed
position.  On success it returns the state struct (unchanged — the
`pool` field is never touched), the two new lamport balances, and the
paid amount. -/
def claim_prize (state : State) (state_lamports wallet_lamports : Nat)
    (_player : Nat) (now : Int) (position : Nat) :
    Except TxError (State × Nat × Nat × Nat) :=
  if !state.finalized then
    .error (.program .PrizeWindowExpired)
  else if now > state.finalized_timestamp + 72 * 3600 then
    .error (.program .PrizeWindowExpired)
  else if position ≥ state.leaderboard.length then
    .error (.program .NotOnLeaderboard)
  else
    match prize_percentage position with
    | none => .error (.program .NotOnLeaderboard)
    | some pct =>
      match (checked_mul state.pool pct).bind (fun total => checked_div total 100) with
      | none => .error (.program .ArithmeticError)
      | some amount =>
        if state_lamports < amount then
          .error .lamports
        else if UMAX < wallet_lamports + amount then
          .error .lamports
        else
          .ok (state, state_lamports - amount, wallet_lamports + amount, amount)

/-- Suit names in the order of the source's `suits` array. -/
def suitNames : List String := ["Hearts", "Diamonds", "Clubs", "Spades"]

/-- The canonical 52-card deck built by `shuffle_deck` before the
shuffle: suit-major over `suits`, rank-ascending over `2..=14`. -/
def canonicalDeck : List Card :=
  suitNames.flatMap fun suit =>
    (List.range 13).map fun i => { suit := suit, value := i + 2 }

/-- Modelled from the spec: the PRNG of the shuffle
(`rand::rngs::StdRng::seed_from_u64`, a ChaCha12 generator) lives in the
external `rand` crate and is not part of this repository; the spec only
requires "a PRNG deterministically seeded from `seed`".  It is modelled
as a splitmix-style deterministic stream of 64-bit words derived from
the seed. -/
def rngWord (seed k : Nat) : Nat :=
  let z := (seed + (k + 1) * 0x9E3779B97F4A7C15) % 2 ^ 64
  let z := (Nat.xor z (z / 2 ^ 30) * 0xBF58476D1CE4E5B9) % 2 ^ 64
  Nat.xor z (z / 2 ^ 27) % 2 ^ 64

/-- Swap the elements at positions `i` and `j` of a list (the `swap` of
the Fisher-Yates loop); out-of-range indices leave the list unchanged. -/
def swapIdx {α : Type} (l : List α) (i j : Nat) : List α :=
  match l[i]?, l[j]? with
  | some a, some b => (l.set i b).set j a
  | _, _ => l

/-- Modelled from the spec: the Fisher-Yates loop of `Vec::shuffle` from
the external `rand` crate (§4.1: "applies a Fisher-Yates permutation
driven by a PRNG").  For `i` from the top index down to `1`, swaps
position `i` with a PRNG-chosen position in `0..=i`. -/
def fyLoop (seed : Nat) : Nat → List Card → List Card
  | 0, deck => deck
  | i + 1, deck => fyLoop seed i (swapIdx deck (i + 1) (rngWord seed (i + 1) % (i + 2)))

/-- `shuffle_deck` from the source: the canonical deck permuted by the
seeded Fisher-Yates shuffle. -/
def shuffle_deck (randomness : Nat) : List Card :=
  fyLoop randomness (canonicalDeck.length - 1) canonicalDeck

/-- Fixture: a session already marked `finished` with three cards left
and a fresh multiplier, inside the 60-second bet window. -/
def pFin : Player :=
  { game_id := 1, start_time := 0, multiplier := 1, side_bet_score := 0,
    randomness := some 42,
    deck := [{ suit := "Hearts", value := 2 }, { suit := "Hearts", value := 10 },
             { suit := "Hearts", value := 3 }],
    daily_games := 1, finished := true }

/-- Fixture: an active session whose deck holds exactly one card. -/
def pOne : Player :=
  { game_id := 1, start_time := 0, multiplier := 1, side_bet_score := 0,
    randomness := some 42, deck := [{ suit := "Hearts", value := 2 }],
    daily_games := 1, finished := false }

/-- Fixture: an active session with three cards left. -/
def pTwo : Player :=
  { game_id := 1, start_time := 0, multiplier := 1, side_bet_score := 0,
    randomness := some 42,
    deck := [{ suit := "Hearts", value := 2 }, { suit := "Hearts", value := 10 },
             { suit := "Hearts", value := 3 }],
    daily_games := 1, finished := false }

/-- Fixture: a session carrying a nonzero side-bet score into the next
round, with the daily cap not yet reached. -/
def pSide : Player :=
  { game_id := 1, start_time := 0, multiplier := 2, side_bet_score := 5,
    randomness := some 42, deck := [{ suit := "Hearts", value := 2 }],
    daily_games := 0, finished := true }

/-- Fixture: a finalized state with a full three-entry leaderboard and a
pool of 100, at the start of the claim window. -/
def stCl : State :=
  { admin := 1, entry_fee := 5, start_time := 0, end_time := 1000,
    leaderboard_size := 3,
    leaderboard := [⟨11, 30⟩, ⟨12, 20⟩, ⟨13, 10⟩],
    finalized := true, finalized_timestamp := 0, pool := 100 }

/-- Fixture: like `stCl` but with a pool of 99. -/
def stCl99 : State :=
  { admin := 1, entry_fee := 5, start_time := 0, end_time := 1000,
    leaderboard_size := 3,
    leaderboard := [⟨11, 30⟩, ⟨12, 20⟩, ⟨13, 10⟩],
    finalized := true, finalized_timestamp := 0, pool := 99 }

/-- Fixture: a not-yet-finalized state whose leaderboard is already in
descending score order. -/
def st0 : State :=
  { admin := 1, entry_fee := 5, start_time := 0, end_time := 1000,
    leaderboard_size := 3,
    leaderboard := [⟨12, 30⟩, ⟨11, 10⟩],
    finalized := false, finalized_timestamp := 0, pool := 100 }

/-- Fixture: the state produced by a first admin finalize of `st0` at
time 100. -/
def stFin1 : State :=
  { admin := 1, entry_fee := 5, start_time := 0, end_time := 1000,
    leaderboard_size := 3,
    leaderboard := [⟨12, 30⟩, ⟨11, 10⟩],
    finalized := true, finalized_timestamp := 100, pool := 100 }

/-- C7: the multiplier gain function returns exactly the authoritative
table values — rank 2 pays 1.2 on High and 4.0 on Low, rank 14 pays 1.2
in either direction, the near-median rank 8 is symmetric at 1.6/1.6 —
and every rank outside 2..14 gets the neutral gain 1.0. -/
theorem C7_gain_table :
    calculate_multiplier_gain 2 .High = 1.2 ∧
    calculate_multiplier_gain 2 .Low = 4.0 ∧
    calculate_multiplier_gain 14 .High = 1.2 ∧
    calculate_multiplier_gain 14 .Low = 1.2 ∧
    calculate_multiplier_gain 8 .High = 1.6 ∧
    calculate_multiplier_gain 8 .Low = 1.6 ∧
    (∀ bt, calculate_multiplier_gain 0 bt = 1) ∧
    (∀ bt, calculate_multiplier_gain 1 bt = 1) ∧
    (∀ k bt, calculate_multiplier_gain (k + 15) bt = 1) :=
  ⟨rfl, rfl, rfl, rfl, rfl, rfl, fun _ => rfl, fun _ => rfl, fun _ _ => rfl⟩

/-- C6: on a deck with at least two cards, `High` is correct iff the
next card's value is strictly greater than the popped current card's,
`Low` iff strictly less, and on a tie both directions are incorrect. -/
theorem C6_strict_inequality (p : Player) (c1 c2 : Card) (rest : List Card)
    (side : Option SideBetType) (h : p.deck = c1 :: c2 :: rest) :
    (resolve_bet p .High side).1.map BetOutcome.correct = .ok (decide (c2.value > c1.value)) ∧
    (resolve_bet p .Low side).1.map BetOutcome.correct = .ok (decide (c2.value < c1.value)) ∧
    (c1.value = c2.value →
      (resolve_bet p .High side).1.map BetOutcome.correct = .ok false ∧
      (resolve_bet p .Low side).1.map BetOutcome.correct = .ok false) := by
  refine ⟨?_, ?_, fun heq => ⟨?_, ?_⟩⟩ <;>
    simp [resolve_bet, h, Except.map] <;> omega

/-- Witness for C6 at a concrete session: current card 2, next card 10,
so a `High` bet resolves as correct. -/
theorem C6_witness :
    (resolve_bet pTwo .High none).1.map BetOutcome.correct = .ok true := by
  have h := C6_strict_inequality pTwo { suit := "Hearts", value := 2 }
    { suit := "Hearts", value := 10 } [{ suit := "Hearts", value := 3 }] none rfl
  simpa using h.1

/-- Counterexample to C5 as stated: on a one-card deck `resolve_bet`
fails with `GameOver` although the deck is not empty, and it has
already removed the card when it fails. -/
theorem C5_counterexample :
    pOne.deck ≠ [] ∧
    (resolve_bet pOne .High none).1 = .error .GameOver ∧
    (resolve_bet pOne .High none).2.deck = [] := by
  refine ⟨?_, ?_, ?_⟩ <;> simp [resolve_bet, pOne]

/-- C5 amended: `resolve_bet` fails iff the deck holds fewer than two
cards, always with `GameOver`; on an empty deck nothing is mutated, but
on a one-card deck the card has been removed when the failure is
reported. -/
theorem C5_amended (p : Player) (bt : BetType) (side : Option SideBetType) :
    ((resolve_bet p bt side).1 = .error .GameOver ↔ p.deck.length < 2) ∧
    (∀ e, (resolve_bet p bt side).1 = .error e → e = .GameOver) ∧
    (p.deck = [] → resolve_bet p bt side = (.error .GameOver, p)) ∧
    (∀ c, p.deck = [c] →
      resolve_bet p bt side = (.error .GameOver, { p with deck := ([] : List Card) })) := by
  rcases hd : p.deck with _ | ⟨c1, _ | ⟨c2, rest⟩⟩ <;>
    simp [resolve_bet, hd]

/-- Witness for C5 amended at the one-card session `pOne`. -/
theorem C5_witness :
    resolve_bet pOne .High none = (.error .GameOver, { pOne with deck := ([] : List Card) }) :=
  (C5_amended pOne .High none).2.2.2 { suit := "Hearts", value := 2 } rfl

/-- C1 (code bug): on the session `pFin`, whose `finished` flag is true,
`place_bet` inside the time window does not fail — it resolves another
bet, consumes a card, and multiplies the multiplier by the gain 1.2. -/
theorem C1_bet_after_finished_succeeds :
    pFin.finished = true ∧
    (place_bet pFin 0 .High none).1 = .ok () ∧
    (place_bet pFin 0 .High none).2.deck ≠ pFin.deck ∧
    (place_bet pFin 0 .High none).2.multiplier ≠ pFin.multiplier ∧
    (place_bet pFin 0 .High none).2.deck =
      [{ suit := "Hearts", value := 10 }, { suit := "Hearts", value := 3 }] ∧
    (place_bet pFin 0 .High none).2.multiplier = 1.2 := by
  refine ⟨rfl, ?_, ?_, ?_, ?_, ?_⟩ <;>
    simp [place_bet, resolve_bet, pFin, calculate_multiplier_gain]
  norm_num

/-- Counterexample to C9 as stated: `start_game` on a session carrying
`side_bet_score = 5` succeeds without resetting the side-bet score. -/
theorem C9_counterexample :
    pSide.daily_games < 10 ∧
    (start_game pSide 100 7).1 = .ok () ∧
    (start_game pSide 100 7).2.side_bet_score = 5 ∧
    (start_game pSide 100 7).2.side_bet_score ≠ 0 := by
  refine ⟨by decide, ?_, ?_, ?_⟩ <;> simp [start_game, pSide]

/-- C9 amended: `start_game` succeeds iff `daily_games < 10` (otherwise
failing with `DailyLimitReached` and leaving the session unchanged); on
success it increments the counter and resets `multiplier` to 1,
`finished` to false, `start_time` to now and `game_id`; it never
touches `side_bet_score`, which keeps its prior value. -/
theorem C9_amended (p : Player) (now : Int) (gid : Nat) :
    (p.daily_games ≥ 10 → start_game p now gid = (.error .DailyLimitReached, p)) ∧
    (p.daily_games < 10 →
      start_game p now gid =
        (.ok (), { p with
          daily_games := p.daily_games + 1
          start_time := now
          game_id := gid
          finished := false
          multiplier := 1 })) ∧
    (start_game p now gid).2.side_bet_score = p.side_bet_score := by
  refine ⟨fun h => ?_, fun h => ?_, ?_⟩
  · simp [start_game, h]
  · simp [start_game, Nat.not_le.mpr h]
  · by_cases h : p.daily_games ≥ 10 <;> simp [start_game, h]

/-- Witness for C9 amended: starting a round on `pSide` succeeds and
resets the round fields. -/
theorem C9_witness :
    start_game pSide 100 7 =
      (.ok (), { pSide with
        daily_games := 1
        start_time := 100
        game_id := 7
        finished := false
        multiplier := 1 }) :=
  (C9_amended pSide 100 7).2.1 (by decide)

/-- Counterexample to C2 as stated: after a first successful
`finalize_leaderboard` on `st0`, a second call by the admin is not
rejected — it returns `Ok` and overwrites `finalized_timestamp`. -/
theorem C2_counterexample :
    (finalize_leaderboard st0 1 100).1 = .ok () ∧
    (finalize_leaderboard st0 1 100).2.finalized = true ∧
    (finalize_leaderboard st0 1 100).2.finalized_timestamp = 100 ∧
    (finalize_leaderboard (finalize_leaderboard st0 1 100).2 1 200).1 = .ok () ∧
    (finalize_leaderboard (finalize_leaderboard st0 1 100).2 1 200).2.finalized_timestamp = 200 := by
  have hsorted : st0.leaderboard.mergeSort scoreDesc = st0.leaderboard :=
    List.mergeSort_of_sorted (by decide)
  refine ⟨?_, ?_, ?_, ?_, ?_⟩ <;>
    simp [finalize_leaderboard, st0, hsorted, List.mergeSort_of_sorted, scoreDesc]

/-- The score comparator is transitive. -/
theorem scoreDesc_trans (a b c : LeaderboardEntry) :
    scoreDesc a b → scoreDesc b c → scoreDesc a c := by
  simp [scoreDesc]
  omega

/-- The score comparator is total. -/
theorem scoreDesc_total (a b : LeaderboardEntry) :
    scoreDesc a b || scoreDesc b a := by
  simp [scoreDesc]
  omega

/-- Evaluation of `finalize_leaderboard` when called by the admin. -/
theorem finalize_self_admin (st : State) (now : Int) :
    finalize_leaderboard st st.admin now =
      (.ok (), { st with
        leaderboard := (st.leaderboard.mergeSort scoreDesc).take st.leaderboard_size
        finalized := true
        finalized_timestamp := now }) := by
  simp [finalize_leaderboard]

/-- C2 amended: a second `finalize_leaderboard` call by the admin is not
rejected by this component — it succeeds, leaves the already-sorted and
already-truncated leaderboard and the `finalized` flag unchanged, and
overwrites `finalized_timestamp` with the new current time.  Rejecting
a double finalize is the caller's responsibility. -/
theorem C2_amended (st s1 : State) (now1 now2 : Int)
    (h : finalize_leaderboard st st.admin now1 = (.ok (), s1)) :
    finalize_leaderboard s1 st.admin now2 =
      (.ok (), { s1 with finalized_timestamp := now2 }) := by
  rw [finalize_self_admin] at h
  have hs1 : s1 = { st with
      leaderboard := (st.leaderboard.mergeSort scoreDesc).take st.leaderboard_size
      finalized := true
      finalized_timestamp := now1 } := by
    have h2 := congrArg Prod.snd h
    simpa using h2.symm
  subst hs1
  have hpair : ((st.leaderboard.mergeSort scoreDesc).take st.leaderboard_size).Pairwise
      fun a b => scoreDesc a b :=
    List.Pairwise.sublist (List.take_sublist _ _)
      (List.sorted_mergeSort scoreDesc_trans scoreDesc_total st.leaderboard)
  refine (finalize_self_admin _ now2).trans ?_
  simp [List.mergeSort_of_sorted hpair, List.take_take]

/-- Witness for C2 amended: the concrete second finalize on the state
produced by finalizing `st0` succeeds and only moves the timestamp. -/
theorem C2_witness :
    finalize_leaderboard stFin1 1 200 = (.ok (), { stFin1 with finalized_timestamp := 200 }) :=
  C2_amended st0 stFin1 100 200 (by
    have hs : List.mergeSort [(⟨12, 30⟩ : LeaderboardEntry), ⟨11, 10⟩] scoreDesc =
        [⟨12, 30⟩, ⟨11, 10⟩] :=
      List.mergeSort_of_sorted (by decide)
    simp [finalize_leaderboard, st0, stFin1, hs])

/-- Inversion of a successful `claim_prize`: the state struct is
returned unchanged, the lamport balances move by exactly the paid
amount in one step, and all the guards held. -/
theorem claim_prize_ok_spec (st : State) (sl wl pk : Nat) (now : Int) (pos : Nat)
    (st' : State) (sl' wl' A : Nat)
    (h : claim_prize st sl wl pk now pos = .ok (st', sl', wl', A)) :
    st' = st ∧ sl' = sl - A ∧ wl' = wl + A ∧ A ≤ sl ∧ wl + A ≤ UMAX ∧
    st.finalized = true ∧ ¬ now > st.finalized_timestamp + 72 * 3600 ∧
    pos < st.leaderboard.length ∧
    ∃ pct, prize_percentage pos = some pct ∧ st.pool * pct ≤ UMAX ∧
      A = st.pool * pct / 100 := by
  unfold claim_prize at h
  split at h
  · cases h
  rename_i hfin
  split at h
  · cases h
  rename_i hnow
  split at h
  · cases h
  rename_i hlen
  split at h
  · cases h
  rename_i pct hpct
  split at h
  · cases h
  rename_i amount hamount
  split at h
  · cases h
  rename_i hsl
  split at h
  · cases h
  rename_i hwl
  simp only [Except.ok.injEq, Prod.mk.injEq] at h
  obtain ⟨rfl, rfl, rfl, rfl⟩ := h
  have hdiv : (checked_mul st.pool pct).bind (fun total => checked_div total 100) =
      some amount := hamount
  rw [checked_mul] at hdiv
  by_cases hle : st.pool * pct ≤ UMAX
  · rw [if_pos hle] at hdiv
    simp [checked_div] at hdiv
    refine ⟨rfl, rfl, rfl, by omega, by omega, by simpa using hfin, hnow, by omega, pct,
      hpct, hle, hdiv.symm⟩
  · rw [if_neg hle] at hdiv
    cases hdiv

/-- Evaluation of a successful `claim_prize`: when all guards hold, the
call pays `pool * pct / 100` by moving lamports and returns the state
struct unchanged. -/
theorem claim_prize_ok_build (st : State) (sl wl pk : Nat) (now : Int) (pos pct : Nat)
    (hfin : st.finalized = true)
    (hnow : now ≤ st.finalized_timestamp + 72 * 3600)
    (hlen : pos < st.leaderboard.length)
    (hpct : prize_percentage pos = some pct)
    (hmul : st.pool * pct ≤ UMAX)
    (hsl : st.pool * pct / 100 ≤ sl)
    (hwl : wl + st.pool * pct / 100 ≤ UMAX) :
    claim_prize st sl wl pk now pos =
      .ok (st, sl - st.pool * pct / 100, wl + st.pool * pct / 100, st.pool * pct / 100) := by
  have h2 : ¬ now > st.finalized_timestamp + 72 * 3600 := not_lt.mpr hnow
  have h3 : ¬ pos ≥ st.leaderboard.length := Nat.not_le.mpr hlen
  have h4 : ¬ sl < st.pool * pct / 100 := Nat.not_lt.mpr hsl
  have h5 : ¬ UMAX < wl + st.pool * pct / 100 := Nat.not_lt.mpr hwl
  simp [claim_prize, hfin, h2, h3, hpct, checked_mul, hmul, checked_div, h4, h5]
  omega

/-- Counterexample to C3 as stated: a successful claim on `stCl` pays
50 lamports out of the state account, but the returned state struct is
`stCl` itself — its `pool` field is not decremented. -/
theorem C3_counterexample :
    claim_prize stCl 1000 0 77 0 0 = .ok (stCl, 950, 50, 50) ∧
    stCl.pool ≠ stCl.pool - 50 :=
  ⟨rfl, by decide⟩

/-- C3 amended: a successful `claim_prize` paying `A` atomically moves
`A` lamports from the state account to the requester's wallet (both in
the single returned result), but the `State.pool` field itself is
returned unchanged. -/
theorem C3_amended (st : State) (sl wl pk : Nat) (now : Int) (pos : Nat)
    (st' : State) (sl' wl' A : Nat)
    (h : claim_prize st sl wl pk now pos = .ok (st', sl', wl', A)) :
    st' = st ∧ sl' = sl - A ∧ wl' = wl + A ∧ A ≤ sl := by
  obtain ⟨h1, h2, h3, h4, -⟩ := claim_prize_ok_spec st sl wl pk now pos st' sl' wl' A h
  exact ⟨h1, h2, h3, h4⟩

/-- Witness for C3 amended at the concrete claim on `stCl`. -/
theorem C3_witness :
    stCl = stCl ∧ (950 : Nat) = 1000 - 50 ∧ (50 : Nat) = 0 + 50 ∧ (50 : Nat) ≤ 1000 :=
  C3_amended stCl 1000 0 77 0 0 stCl 950 50 50 rfl

/-- C4: within a finalized claim window, a valid position pays
`floor(pool * pct / 100)` with `pct` 50/30/20 for positions 0/1/2; any
position at least 3 fails with `NotOnLeaderboard`; multiplication
overflow beyond `u64` fails with `ArithmeticError`; and concretely
pool 100 at position 0 pays 50 while pool 99 at position 2 pays 19. -/
theorem C4_prize_amounts :
    (∀ (st : State) (sl wl pk : Nat) (now : Int) (pos pct : Nat),
      st.finalized = true →
      now ≤ st.finalized_timestamp + 72 * 3600 →
      pos < st.leaderboard.length →
      prize_percentage pos = some pct →
      st.pool * pct ≤ UMAX →
      st.pool * pct / 100 ≤ sl →
      wl + st.pool * pct / 100 ≤ UMAX →
      claim_prize st sl wl pk now pos =
        .ok (st, sl - st.pool * pct / 100, wl + st.pool * pct / 100, st.pool * pct / 100)) ∧
    prize_percentage 0 = some 50 ∧
    prize_percentage 1 = some 30 ∧
    prize_percentage 2 = some 20 ∧
    (∀ pos, 3 ≤ pos → prize_percentage pos = none) ∧
    (∀ (st : State) (sl wl pk : Nat) (now : Int) (pos : Nat),
      st.finalized = true →
      now ≤ st.finalized_timestamp + 72 * 3600 →
      3 ≤ pos →
      claim_prize st sl wl pk now pos = .error (.program .NotOnLeaderboard)) ∧
    (∀ (st : State) (sl wl pk : Nat) (now : Int) (pos pct : Nat),
      st.finalized = true →
      now ≤ st.finalized_timestamp + 72 * 3600 →
      pos < st.leaderboard.length →
      prize_percentage pos = some pct →
      UMAX < st.pool * pct →
      claim_prize st sl wl pk now pos = .error (.program .ArithmeticError)) ∧
    claim_prize stCl 1000 0 77 0 0 = .ok (stCl, 950, 50, 50) ∧
    claim_prize stCl99 1000 0 77 0 2 = .ok (stCl99, 981, 19, 19) := by
  have hge3 : ∀ pos, 3 ≤ pos → prize_percentage pos = none := by
    intro pos h3
    obtain ⟨k, rfl⟩ : ∃ k, pos = k + 3 := ⟨pos - 3, by omega⟩
    rfl
  refine ⟨claim_prize_ok_build, rfl, rfl, rfl, hge3, ?_, ?_, rfl, rfl⟩
  · intro st sl wl pk now pos hfin hnow h3
    have h2 : ¬ now > st.finalized_timestamp + 72 * 3600 := not_lt.mpr hnow
    by_cases hl : pos ≥ st.leaderboard.length
    · simp [claim_prize, hfin, h2, hl]
      omega
    · simp [claim_prize, hfin, h2, hl, hge3 pos h3]
      omega
  · intro st sl wl pk now pos pct hfin hnow hlen hpct hover
    have h2 : ¬ now > st.finalized_timestamp + 72 * 3600 := not_lt.mpr hnow
    have h3 : ¬ pos ≥ st.leaderboard.length := Nat.not_le.mpr hlen
    have h4 : ¬ st.pool * pct ≤ UMAX := not_le.mpr hover
    simp [claim_prize, hfin, h2, h3, hpct, checked_mul, h4, checked_div]
    omega

/-- Witness for C4 at the concrete claim of position 1 on `stCl`. -/
theorem C4_witness :
    claim_prize stCl 1000 0 77 0 1 = .ok (stCl, 970, 30, 30) :=
  C4_prize_amounts.1 stCl 1000 0 77 0 1 30 rfl (by decide) (by decide) rfl
    (by decide) (by decide) (by decide)

/-- C10: `claim_prize` never inspects the requesting signer — any two
requesters get the identical result and paid amount on the same state —
and a successfully claimed position can be claimed again at the same
time with the same payout, since neither the pool field nor any claimed
marker is recorded. -/
theorem C10_requester_irrelevant :
    (∀ (st : State) (sl wl : Nat) (now : Int) (pos r1 r2 : Nat),
      claim_prize st sl wl r1 now pos = claim_prize st sl wl r2 now pos) ∧
    (∀ (st : State) (sl wl pk : Nat) (now : Int) (pos : Nat)
      (st' : State) (sl' wl' A : Nat),
      claim_prize st sl wl pk now pos = .ok (st', sl', wl', A) →
      A ≤ sl' → wl' + A ≤ UMAX →
      claim_prize st' sl' wl' pk now pos = .ok (st', sl' - A, wl' + A, A)) := by
  constructor
  · intro st sl wl now pos r1 r2
    rfl
  · intro st sl wl pk now pos st' sl' wl' A h hsl hwl
    obtain ⟨rfl, h2, h3, h4, h5, hfin, hnow, hlen, pct, hpct, hmul, hA⟩ :=
      claim_prize_ok_spec st sl wl pk now pos st' sl' wl' A h
    subst hA
    exact claim_prize_ok_build _ sl' wl' pk now pos pct hfin (not_lt.mp hnow) hlen
      hpct hmul hsl hwl

/-- Witness for C10: after the successful claim of position 0 on `stCl`,
the same position is claimed again with the same payout of 50. -/
theorem C10_witness :
    claim_prize stCl 950 50 77 0 0 = .ok (stCl, 900, 100, 50) :=
  C10_requester_irrelevant.2 stCl 1000 0 77 0 0 stCl 950 50 50 rfl (by decide) (by decide)

/-- Prepending the element stored at position `m` to the list with that
position overwritten is a permutation of prepending the new element. -/
theorem cons_set_perm {α : Type} : ∀ (t : List α) (m : Nat) (a b : α),
    t[m]? = some b → (b :: t.set m a).Perm (a :: t)
  | [], m, a, b, h => by simp at h
  | x :: s, 0, a, b, h => by
    simp only [List.getElem?_cons_zero, Option.some.injEq] at h
    subst h
    simp only [List.set_cons_zero]
    exact List.Perm.swap a x s
  | x :: s, m + 1, a, b, h => by
    simp only [List.getElem?_cons_succ] at h
    simp only [List.set_cons_succ]
    exact (List.Perm.swap x b (s.set m a)).trans
      (((cons_set_perm s m a b h).cons x).trans (List.Perm.swap a x s))

/-- Writing each of two stored elements to the other position permutes
the list. -/
theorem set_set_perm {α : Type} : ∀ (l : List α) (i j : Nat) (a b : α),
    l[i]? = some a → l[j]? = some b → ((l.set i b).set j a).Perm l
  | [], _, _, _, _, hi, _ => by simp at hi
  | x :: t, 0, 0, a, b, hi, hj => by
    simp only [List.getElem?_cons_zero, Option.some.injEq] at hi hj
    simp only [List.set_cons_zero]
    rw [hi]
  | x :: t, 0, m + 1, a, b, hi, hj => by
    simp only [List.getElem?_cons_zero, Option.some.injEq] at hi
    simp only [List.getElem?_cons_succ] at hj
    simp only [List.set_cons_zero, List.set_cons_succ]
    rw [hi]
    exact cons_set_perm t m a b hj
  | x :: t, k + 1, 0, a, b, hi, hj => by
    simp only [List.getElem?_cons_succ] at hi
    simp only [List.getElem?_cons_zero, Option.some.injEq] at hj
    simp only [List.set_cons_zero, List.set_cons_succ]
    rw [hj]
    exact cons_set_perm t k b a hi
  | x :: t, k + 1, m + 1, a, b, hi, hj => by
    simp only [List.getElem?_cons_succ] at hi hj
    simp only [List.set_cons_succ]
    exact (set_set_perm t k m a b hi hj).cons x

/-- A swap is a permutation. -/
theorem swapIdx_perm {α : Type} (l : List α) (i j : Nat) : (swapIdx l i j).Perm l := by
  unfold swapIdx
  split
  · rename_i a b hi hj
    exact set_set_perm l i j a b hi hj
  · exact List.Perm.refl l

/-- Every pass of the Fisher-Yates loop permutes the deck. -/
theorem fyLoop_perm (seed : Nat) : ∀ (n : Nat) (deck : List Card),
    (fyLoop seed n deck).Perm deck
  | 0, deck => List.Perm.refl deck
  | n + 1, deck =>
    (fyLoop_perm seed n _).trans
      (swapIdx_perm deck (n + 1) (rngWord seed (n + 1) % (n + 2)))

/-- The shuffled deck is a permutation of the canonical deck. -/
theorem shuffle_deck_perm (seed : Nat) : (shuffle_deck seed).Perm canonicalDeck :=
  fyLoop_perm seed _ _

/-- The canonical deck has 52 cards. -/
theorem canonicalDeck_length : canonicalDeck.length = 52 := by decide

/-- The canonical deck has no duplicates. -/
theorem canonicalDeck_nodup : canonicalDeck.Nodup := by decide

/-- C8: for every seed the shuffled deck is a permutation of exactly
the 52 canonical cards — length 52, no duplicates, every canonical
suit/value pair (the 4 suits crossed with values 2..14) appearing
exactly once and nothing else — and the shuffle is a deterministic
function of the seed. -/
theorem C8_shuffle_permutation :
    (∀ seed, (shuffle_deck seed).Perm canonicalDeck) ∧
    (∀ seed, (shuffle_deck seed).length = 52) ∧
    (∀ seed, (shuffle_deck seed).Nodup) ∧
    (∀ seed c, (shuffle_deck seed).count c = if c ∈ canonicalDeck then 1 else 0) ∧
    (∀ seed c, c ∈ shuffle_deck seed ↔ c ∈ canonicalDeck) ∧
    (∀ c, c ∈ canonicalDeck ↔ (c.suit ∈ suitNames ∧ 2 ≤ c.value ∧ c.value ≤ 14)) ∧
    (∀ s1 s2, s1 = s2 → shuffle_deck s1 = shuffle_deck s2) := by
  refine ⟨shuffle_deck_perm, ?_, ?_, ?_, ?_, ?_, ?_⟩
  · intro seed
    exact (shuffle_deck_perm seed).length_eq.trans canonicalDeck_length
  · intro seed
    exact (shuffle_deck_perm seed).nodup_iff.mpr canonicalDeck_nodup
  · intro seed c
    rw [(shuffle_deck_perm seed).count_eq c]
    by_cases hc : c ∈ canonicalDeck
    · rw [if_pos hc]
      exact List.count_eq_one_of_mem canonicalDeck_nodup hc
    · rw [if_neg hc]
      exact List.count_eq_zero_of_not_mem hc
  · intro seed c
    exact (shuffle_deck_perm seed).mem_iff
  · intro c
    obtain ⟨s, v⟩ := c
    simp only [canonicalDeck, suitNames, List.mem_flatMap, List.mem_map, List.mem_range]
    constructor
    · rintro ⟨su, hsu, i, hi, heq⟩
      obtain ⟨rfl, rfl⟩ : su = s ∧ i + 2 = v := by
        constructor <;> cases heq <;> rfl
      exact ⟨hsu, by omega, by omega⟩
    · rintro ⟨hs, h2, h14⟩
      exact ⟨s, hs, v - 2, by omega, by simp; omega⟩
  · intro s1 s2 h
    rw [h]

/-- Witness for C8 determinism at the concrete seed 42. -/
theorem C8_witness : shuffle_deck 42 = shuffle_deck 42 :=
  C8_shuffle_permutation.2.2.2.2.2.2 42 42 rfl
